import Mathlib

/-!
Shallow embedding of the QAIYRYM Telegram bot (repository sovushka0290/qaiyrymbot)
and proofs about its conversation/session state machine, chat turn loop,
prompt builder and user-record store.

The embedding follows `src/qaiyrym_/main.py`, the complete draft of the
program (all message/callback handlers are present there).  `src/main.py`
is a second, partial draft (its registration/chat handlers are elided in
the source with a comment); where its definitions differ and matter to a
property, they are embedded separately under a `_main` suffix.

External effects are modelled explicitly:
  * the generative backend call (`client.models.generate_content` wrapped in
    `asyncio.wait_for`) is abstracted by a `BackendOutcome` oracle, one per
    potential call (primary model, fallback model);
  * the durable JSON file write in `save_users_db` is abstracted by an
    `ioOk : Bool` flag saying whether `open`/`json.dump` raises;
  * the best-effort spreadsheet append is abstracted by a `sheetsOk : Bool`
    flag (its result is ignored by the source, and by the model);
  * `datetime.now().isoformat()` is passed in as a `now : String` argument.
-/

namespace Qaiyrym

/-! ## Python string primitives used by the handlers -/

/-- Whitespace characters stripped by Python `str.strip()` (the ASCII ones;
the inputs manipulated by the bot contain no exotic Unicode whitespace). -/
def pyIsSpace (c : Char) : Bool :=
  c = ' ' || c = '\t' || c = '\n' || c = '\r' || c = '\x0b' || c = '\x0c'

/-- Python `str.strip()`: drop whitespace from both ends. -/
def pyStrip (s : String) : String :=
  String.mk (((s.data.dropWhile pyIsSpace).reverse.dropWhile pyIsSpace).reverse)

/-- Per-character case folding as done by Python `str.lower()` on the
alphabets that occur in this program: ASCII letters and the Cyrillic
range А..Я (U+0410..U+042F) plus Ё (U+0401). -/
def pyLowerChar (c : Char) : Char :=
  if 'A' ≤ c ∧ c ≤ 'Z' then Char.ofNat (c.toNat + 32)
  else if 'А' ≤ c ∧ c ≤ 'Я' then Char.ofNat (c.toNat + 32)
  else if c = 'Ё' then 'ё'
  else c

/-- Python `str.lower()` (restricted to the alphabets used by the program). -/
def pyLower (s : String) : String :=
  String.mk (s.data.map pyLowerChar)

/-- Python `str.isdigit()` restricted to ASCII decimal digits: true iff the
string is nonempty and all characters are `0`..`9`.  (On such strings this
coincides with "parses as a non-negative integer literal via `int`".) -/
def pyIsDigitStr (s : String) : Bool :=
  (s ≠ "" : Bool) && s.data.all (fun c => '0' ≤ c && c ≤ '9')

/-- Python `int` on a string of decimal digits. -/
def pyInt (s : String) : Nat :=
  s.data.foldl (fun n c => n * 10 + (c.toNat - '0'.toNat)) 0

/-- The HTML escaping applied to the model reply before sending
(`reply.replace("<", "&lt;").replace(">", "&gt;")`; the two `replace`
passes commute into one character-wise pass because the first pass
introduces no `>` and the second no `<`). -/
def escapeHtml (s : String) : String :=
  String.mk (s.data.flatMap fun c =>
    if c = '<' then ['&', 'l', 't', ';']
    else if c = '>' then ['&', 'g', 't', ';']
    else [c])

/-! ## Data model: turns, values, user records, the durable store -/

/-- One chat-history entry, as stored by `chat_mode_message`:
`{"role": "user"|"model", "content": text}`. -/
structure Turn where
  role : String
  content : String
deriving DecidableEq, Repr

/-- A JSON-ish value stored in a user-record field. -/
inductive Value where
  | str (s : String)
  | int (n : Nat)
  | bool (b : Bool)
deriving DecidableEq, Repr

/-- A user record: a Python dict from field name to value. -/
def UserRec := String → Option Value

/-- The user table `USERS_DATA`: user id → record. -/
def Store := String → Option UserRec

/-- Field lookup through the store: the value of field `k` of user `uid`. -/
def storeField (s : Store) (uid k : String) : Option Value :=
  (s uid).bind fun r0 => r0 k

def DEFAULT_LANG : String := "ru"

/-- The in-memory table together with the JSON file it is persisted to;
`save_users_db` rewrites the file wholesale from the memory table. -/
structure DB where
  mem : Store
  disk : Store

/-- `save_users_db` (src/qaiyrym_/main.py lines 104-110): dumps `USERS_DATA`
to `users_db.json`.  Any exception from the file write is caught inside the
function and only logged, so the caller never observes a failure; `ioOk`
says whether the underlying write succeeded. -/
def save_users_db (db : DB) (ioOk : Bool) : DB :=
  if ioOk then { db with disk := db.mem } else db

/-- `get_user_role` (lines 111-115): `USERS_DATA[user_id].get("role", "GUEST")`
when the user is present, else `"GUEST"`.  (Every write in the program stores
a string under `"role"`; a non-string value — which no code path produces —
is classified as `"GUEST"` here.) -/
def get_user_role (s : Store) (user_id : String) : String :=
  match s user_id with
  | some r0 =>
    match r0 "role" with
    | some (Value.str r) => r
    | _ => "GUEST"
  | none => "GUEST"

/-- The record written by `save_user_registration` (lines 119-127). -/
def registration_record (user_id name : String) (age : Nat)
    (skill lang registered_at : String) : UserRec := fun k =>
  if k = "user_id" then some (Value.str user_id)
  else if k = "name" then some (Value.str name)
  else if k = "age" then some (Value.int age)
  else if k = "skill" then some (Value.str skill)
  else if k = "lang" then some (Value.str lang)
  else if k = "role" then some (Value.str "MEMBER")
  else if k = "registered_at" then some (Value.str registered_at)
  else none

/-- The in-memory mutation of `save_user_registration`:
`USERS_DATA[user_id] = {...}` with role `"MEMBER"`. -/
def register_mem (s : Store) (user_id name : String) (age : Nat)
    (skill lang registered_at : String) : Store := fun u =>
  if u = user_id then some (registration_record user_id name age skill lang registered_at)
  else s u

/-- `save_user_registration` (lines 116-134): writes the MEMBER record into
`USERS_DATA`, calls `save_users_db` (which swallows file-I/O errors), then
fires the best-effort spreadsheet append (whose boolean result it ignores)
and returns `True`.  The `except` branch returning `False` can only be
reached if the plain dict assignment itself raised, which no input causes —
in particular a failing store write does NOT make it return `False`. -/
def save_user_registration (db : DB) (user_id name : String) (age : Nat)
    (skill lang username registered_at : String) (ioOk sheetsOk : Bool) : DB × Bool :=
  let db1 : DB := { db with mem := register_mem db.mem user_id name age skill lang registered_at }
  let db2 := save_users_db db1 ioOk
  -- append_volunteer_to_sheets(user_id, name, age, skill, lang, username):
  -- best-effort, result (sheetsOk) discarded by the source
  (db2, true)

/-- The fresh record created by `set_user_language` (qaiyrym_ variant,
line 138) for an unseen user: `{"role": "GUEST"}`. -/
def guest_only_record : UserRec := fun k =>
  if k = "role" then some (Value.str "GUEST") else none

/-- In-memory part of `set_user_language` (src/qaiyrym_/main.py lines 135-140):
create `{"role": "GUEST"}` if the user is absent, then set `"lang"`. -/
def set_user_language_mem (s : Store) (user_id lang : String) : Store :=
  let base := (s user_id).getD guest_only_record
  fun u =>
    if u = user_id then some (fun k => if k = "lang" then some (Value.str lang) else base k)
    else s u

/-- `set_user_language` (qaiyrym_ variant): mutate memory, then persist. -/
def set_user_language (db : DB) (user_id lang : String) (ioOk : Bool) : DB :=
  save_users_db { db with mem := set_user_language_mem db.mem user_id lang } ioOk

/-- The fresh record created by the `src/main.py` variant of
`set_user_language` (lines 130-134) for an unseen user:
`{"role": "GUEST", "agreed": False}`. -/
def guest_agreed_record_main : UserRec := fun k =>
  if k = "role" then some (Value.str "GUEST")
  else if k = "agreed" then some (Value.bool false)
  else none

/-- In-memory part of `set_user_language` as written in `src/main.py`
lines 130-134 (differs from the qaiyrym_ variant only in the fresh record). -/
def set_user_language_mem_main (s : Store) (user_id lang : String) : Store :=
  let base := (s user_id).getD guest_agreed_record_main
  fun u =>
    if u = user_id then some (fun k => if k = "lang" then some (Value.str lang) else base k)
    else s u

/-! ## Generative backend (Gemini) -/

def GEMINI_MODEL_NAME : String := "gemini-2.5-flash"
def GEMINI_FALLBACK_MODEL : String := "gemini-2.0-flash"

/-- Outcome of one `generate_content` call as observed through
`asyncio.wait_for`:  a response (whose `.text` may be absent/empty),
a timeout, or an exception classified the way `ask_gemini` classifies
`str(e)` (invalid API key / 404-not-found / anything else). -/
inductive BackendOutcome where
  | ok (text : Option String)
  | timeout
  | invalidKey
  | notFound
  | otherError
deriving DecidableEq, Repr

/-- Fixed reply strings of `ask_gemini` (src/qaiyrym_/main.py lines 241-266). -/
def EMPTY_RESPONSE_REPLY : String := "Извините, не могу ответить."
def TIMEOUT_REPLY : String := "⏱️ Время ответа истекло. Попробуйте позже."
def APIKEY_REPLY : String := "⚠️ Ошибка API. Проверьте настройки."
def GENERIC_FAIL_REPLY : String := "К сожалению, не могу ответить."

/-- The value `_generate_sync` returns from a completed response:
`response.text.strip() if response.text else "Извините, не могу ответить."`
(`None` and `""` are both falsy in Python). -/
def generate_sync_result : Option String → String
  | none => EMPTY_RESPONSE_REPLY
  | some s => if s = "" then EMPTY_RESPONSE_REPLY else pyStrip s

/-- `ask_gemini` (src/qaiyrym_/main.py lines 224-266).  The two potential
network calls are abstracted by the `primary`/`fallback` oracles; the
function returns the reply string exactly as the source computes it in each
branch, paired with the list of model identifiers actually invoked (in call
order).  Every branch returns normally: no exception escapes to the caller.
On a not-found error the fallback call's own failure — of any kind, the
source's `except Exception` — yields the generic failure string. -/
def ask_gemini (prompt : String) (system_prompt : Option String) (user_lang : String)
    (skip_lang_instruction : Bool) (primary fallback : BackendOutcome) : String × List String :=
  let base := system_prompt.getD ""
  let system_instruction :=
    if skip_lang_instruction = false then
      let lang := if user_lang = "ru" ∨ user_lang = "kz" then user_lang else DEFAULT_LANG
      let lang_name := if lang = "ru" then "русском" else "казахском"
      let lang_instruction := "Отвечай на " ++ lang_name ++ " (" ++ lang ++ ")."
      if base ≠ "" then base ++ "\n\n" ++ lang_instruction else lang_instruction
    else base
  -- system_instruction (and prompt) only shape the request payload; the
  -- call's outcome is the oracle's
  let _request := (prompt, system_instruction)
  match primary with
  | .ok txt => (generate_sync_result txt, [GEMINI_MODEL_NAME])
  | .timeout => (TIMEOUT_REPLY, [GEMINI_MODEL_NAME])
  | .invalidKey => (APIKEY_REPLY, [GEMINI_MODEL_NAME])
  | .notFound =>
    match fallback with
    | .ok txt => (generate_sync_result txt, [GEMINI_MODEL_NAME, GEMINI_FALLBACK_MODEL])
    | _ => (GENERIC_FAIL_REPLY, [GEMINI_MODEL_NAME, GEMINI_FALLBACK_MODEL])
  | .otherError => (GENERIC_FAIL_REPLY, [GEMINI_MODEL_NAME])

/-! ## Prompt builder -/

/-- The block appended to the system instruction when
`chat_history_len <= 2` (first-turn greeting allowance). -/
def GREETING_BLOCK : String :=
  "\n⭐ ПЕРВОЕ СООБЩЕНИЕ:\nТы МОЖЕШЬ поздороваться и задать первый вопрос:\n\x27Привет! Я — Компас, координатор QAIYRYM. Как дела? Расскажи, что тебя привело в наш проект?\x27\n"

/-- The block appended instead when `chat_history_len > 2`
(explicit no-re-greeting). -/
def NO_REGREET_BLOCK : String :=
  "\n⭐ ПОСЛЕДУЮЩИЕ: НЕ повторяй приветствие, продолжи диалог.\n"

/-- Marker substring occurring (only) in the greeting-allowance block. -/
def GREETING_MARKER : String := "ПЕРВОЕ СООБЩЕНИЕ"

/-- Marker substring occurring (only) in the no-re-greeting block. -/
def NO_REGREET_MARKER : String := "НЕ повторяй приветствие"

/-- The role-dependent tail appended for `role == "MEMBER"`. -/
def MEMBER_BLOCK : String := "\n👤 РЕЖИМ УЧАСТНИКА: Обсуждай глубокие темы, детали помощи."

/-- The role-dependent tail appended otherwise. -/
def GUEST_BLOCK : String := "\n👤 РЕЖИМ ГОСТЯ: Будь дружелюбен, поощряй присоединиться."

/-- The fixed head of the system instruction (the `base` f-string of the
source, parameterized by the interpolated language name and code). -/
def instructionBase (lang_name lang : String) : String :=
  "Ты — Компас, ИИ-координатор проекта QAIYRYM.\n\n🎯 ГЛАВНАЯ ЗАДАЧА — ЗАДАВАЙ ВОПРОСЫ!\nТвоя задача — ВЫТЯГИВАТЬ ИНФОРМАЦИЮ, а не просто отвечать.\nТы ведешь ИНТЕРВЬЮ. После каждого ответа задай 1-2 вопроса!\n\nСТРАТЕГИЯ:\n1. ИНТЕРВЬЮ: Каждый ответ = вопрос в конце\n2. ПОРЦИИ: Не рассказывай всё сразу, давай 30% информации\n3. ГИБКОСТЬ: 3-4 предложения обычно, подробнее если просит\n4. ЛИЧНОСТЬ: Используй \x27Кстати, а ты...\x27, \x27Интересно узнать...\x27\n5. ЭКСТРАВЕРТ: Предлагай помощь, интересуйся деталями\n\nТЕХНИКА:\n• Язык: "
    ++ lang_name ++ " (" ++ lang ++
  ")\n• Используй <code> для терминов\n• Оформляй важное <b>жирным</b>\n• Избегай скучных списков\n"

/-- `get_chat_system_instruction` (src/qaiyrym_/main.py lines 181-223):
a pure function of (language, role, history length). -/
def get_chat_system_instruction (user_lang role : String) (chat_history_len : Nat) : String :=
  let lang := if user_lang = "ru" ∨ user_lang = "kz" then user_lang else "ru"
  let lang_name := if lang = "ru" then "русском" else "казахском"
  instructionBase lang_name lang
    ++ (if chat_history_len ≤ 2 then GREETING_BLOCK else NO_REGREET_BLOCK)
    ++ (if role = "MEMBER" then MEMBER_BLOCK else GUEST_BLOCK)

/-! ## Localized text table -/

/-- The `TEXTS` table (src/qaiyrym_/main.py lines 277-302), as an
association list per key. -/
def TEXTS (key : String) : Option (List (String × String)) :=
  if key = "choose_lang" then some [("ru", "Выберите язык:"), ("kz", "Тілді таңдаңыз:")]
  else if key = "intro_guest" then some [("ru", "Я — Компас, твой координатор QAIYRYM. Выбери действие:"), ("kz", "Мен — Компас. Әрекетті таңдаңыз:")]
  else if key = "intro_member" then some [("ru", "Привет, участник! 🎉 Чем могу помочь?"), ("kz", "Сәлем, қатысушы! 🎉")]
  else if key = "join_intro" then some [("ru", "🤝 <b>Как вступить?</b>\n\nДавайте зарегистрируемся!"), ("kz", "🤝 <b>Қалай қосылуға болады?</b>\n\nТіркелейік!")]
  else if key = "ask_name" then some [("ru", "Введи своё имя:"), ("kz", "Өз атыңды енгіз:")]
  else if key = "ask_age" then some [("ru", "Укажи свой возраст (цифрой):"), ("kz", "Жасыңды енгіз (цифрмен):")]
  else if key = "ask_skill" then some [("ru", "Расскажи о своих навыках:"), ("kz", "Дағдыларың туралы айт:")]
  else if key = "invalid_age" then some [("ru", "Введи возраст цифрой (например: 25)"), ("kz", "Жасыңды цифрмен енгіз:")]
  else if key = "underage" then some [("ru", "⚠️ Регистрация доступна с 18 лет."), ("kz", "⚠️ Тіркеу 18 жастан бастап.")]
  else if key = "registered" then some [("ru", "✅ Регистрация завершена! Добро пожаловать! 🎉"), ("kz", "✅ Тіркеу аяқталды! 🎉")]
  else if key = "chat_mode_on" then some [("ru", "💬 <b>Режим общения</b>\n\nПиши мне — я отвечу! 👇"), ("kz", "💬 <b>Сөйлесу режимі</b>\n\nМаған жаз! 👇")]
  else if key = "use_menu_buttons" then some [("ru", "👇 Используйте кнопки меню."), ("kz", "👇 Мәзір түймелерін пайдаланыңыз.")]
  else none

/-- `t` (lines 270-276): look the key up, then the language with
default-language fallback; unknown keys give `""`.  (Only the keys used by
the embedded handlers are present in `TEXTS` above; all values are dicts in
the source, so the non-dict branch of `t` collapses to `""` for `None`.) -/
def t (key lang : String) : String :=
  let lg := if lang = "ru" ∨ lang = "kz" then lang else DEFAULT_LANG
  match TEXTS key with
  | some d =>
    match d.lookup lg with
    | some s => s
    | none => (d.lookup DEFAULT_LANG).getD ""
  | none => ""

/-! ## Session state machine (aiogram FSM) -/

/-- The `OnboardingState` states (src/qaiyrym_/main.py lines 306-314). -/
inductive Stage where
  | choose_language
  | guest_menu
  | member_menu
  | chat_mode
  | about_submenu
  | registration_name
  | registration_age
  | registration_skill
deriving DecidableEq, Repr

/-- The per-session FSM data dict: the keys this program ever stores
(`lang`, `name`, `age`, `chat_history`). -/
structure SessionData where
  lang : Option String
  name : Option String
  age : Option Nat
  chat_history : List Turn
deriving DecidableEq, Repr

/-- The empty data dict (fresh session, or after `state.clear()`). -/
def SessionData.empty : SessionData := ⟨none, none, none, []⟩

/-- A session: the FSM state (`none` models aiogram state `None`, e.g.
after `state.clear()`) plus the data dict. -/
structure Session where
  stage : Option Stage
  data : SessionData
deriving DecidableEq, Repr

/-! ## Chat turn loop -/

/-- Result of one inbound text message: new session, store, the texts
answered to the user (in order) and the backend models invoked. -/
structure ChatOutcome where
  history : List Turn
  reply : Option String
  calls : List String
deriving DecidableEq, Repr

/-- The noise filter of `chat_mode_message` (line 503). -/
def skip_words : List String :=
  ["ок", "да", "нет", "привет", "привет!", "ха", "оке", "хорошо", "спасибо", "пока"]

/-- `chat_mode_message` (src/qaiyrym_/main.py lines 495-560), the chat turn
loop.  Returns the chat history as persisted by `state.update_data` at the
end of the turn (unchanged if the empty/noise filter discarded the
utterance), the reply sent (escaped), and the backend calls made.
`knowledge` is the module-level `KNOWLEDGE_MANIFEST`. -/
def chat_mode_message (text : String) (chat_history : List Turn)
    (lang role knowledge : String) (primary fallback : BackendOutcome) : ChatOutcome :=
  let user_text := pyStrip text
  if user_text = "" then ⟨chat_history, none, []⟩
  else if skip_words.contains (pyLower user_text) then ⟨chat_history, none, []⟩
  else
    let hist1 := chat_history ++ [⟨"user", user_text⟩]
    let instr0 := get_chat_system_instruction lang role hist1.length
    let system_instruction :=
      if knowledge = "" then instr0
      else instr0 ++ "\n\n[CONTEXT_DATA]\n" ++ knowledge ++ "\n[END_CONTEXT_DATA]"
    let full_prompt := String.intercalate "\n\n" (hist1.map fun m =>
      (if m.role = "user" then "🧑 ПОЛЬЗОВАТЕЛЬ: " else "🤖 КОМПАС: ") ++ m.content)
    let rc := ask_gemini full_prompt (some system_instruction) lang true primary fallback
    let hist2 := hist1 ++ [⟨"model", rc.1⟩]
    let hist3 := if 20 < hist2.length then hist2.drop (hist2.length - 20) else hist2
    ⟨hist3, some (escapeHtml rc.1), rc.2⟩

/-! ## Registration handlers and the text-message dispatch -/

/-- Result of dispatching one inbound plain-text message. -/
structure StepResult where
  session : Session
  db : DB
  messages : List String
  calls : List String

/-- `reg_name` (lines 427-434): store the stripped name, advance to the
age stage, prompt for the age. -/
def reg_name (text : String) (sess : Session) : Session × List String :=
  let nm := pyStrip text
  let lang := sess.data.lang.getD DEFAULT_LANG
  (⟨some Stage.registration_age, { sess.data with name := some nm }⟩, [t "ask_age" lang])

/-- `reg_age` (lines 435-453): on a non-digit input re-prompt without any
state change; on a digit input `< 18` show the underage message and
`state.clear()`; otherwise store the age and advance to the skill stage. -/
def reg_age (text : String) (sess : Session) : Session × List String :=
  let txt := pyStrip text
  let lang := sess.data.lang.getD DEFAULT_LANG
  if pyIsDigitStr txt = false then (sess, [t "invalid_age" lang])
  else
    let age := pyInt txt
    if age < 18 then (⟨none, SessionData.empty⟩, [t "underage" lang])
    else (⟨some Stage.registration_skill, { sess.data with age := some age }⟩, [t "ask_skill" lang])

/-- `reg_skill` (lines 454-474): build the full record and persist via
`save_user_registration`; since that function returns `True` on every
input (its `False` branch is unreachable — see `save_user_registration`),
the success path always runs: success message, `state.clear()` followed by
`set_state(member_menu)`, member-menu intro.  The else branch below embeds
the source's error path verbatim even though `r.2` is always `true`. -/
def reg_skill (text user_id username : String) (sess : Session) (db : DB)
    (ioOk sheetsOk : Bool) (now : String) : StepResult :=
  let skill := pyStrip text
  let lang := sess.data.lang.getD DEFAULT_LANG
  let nm := sess.data.name.getD ""
  let age := sess.data.age.getD 0
  let r := save_user_registration db user_id nm age skill lang username now ioOk sheetsOk
  if r.2 then
    ⟨⟨some Stage.member_menu, SessionData.empty⟩, r.1,
      [t "registered" lang, t "intro_member" lang], []⟩
  else
    ⟨⟨none, SessionData.empty⟩, r.1, ["❌ Ошибка при сохранении. Попробуйте позже."], []⟩

/-- Dispatch of one inbound plain-text (non-command) message, following
aiogram's routing over the registered `router.message` handlers of
src/qaiyrym_/main.py and their `StateFilter`s:
* `registration_name` / `registration_age` / `registration_skill` →
  `reg_name` / `reg_age` / `reg_skill`;
* `chat_mode` → `chat_mode_message` (the history it returns is what
  `state.update_data` persisted);
* `guest_menu` / `member_menu` → `guest_menu_text` / `member_menu_text`
  (lines 561-570): answer `use_menu_buttons`, no state change;
* state `None` → `handle_unknown` (lines 603-606): set `choose_language`
  and show the language prompt (`set_state` does not clear the data dict);
* `choose_language` and `about_submenu` have NO text handler registered,
  so the message matches nothing: no reply, no mutation. -/
def handle_text (text user_id username : String) (sess : Session) (db : DB)
    (primary fallback : BackendOutcome) (ioOk sheetsOk : Bool)
    (knowledge now : String) : StepResult :=
  match sess.stage with
  | some Stage.registration_name =>
    let r := reg_name text sess
    ⟨r.1, db, r.2, []⟩
  | some Stage.registration_age =>
    let r := reg_age text sess
    ⟨r.1, db, r.2, []⟩
  | some Stage.registration_skill =>
    reg_skill text user_id username sess db ioOk sheetsOk now
  | some Stage.chat_mode =>
    let lang := sess.data.lang.getD DEFAULT_LANG
    let role := get_user_role db.mem user_id
    let out := chat_mode_message text sess.data.chat_history lang role knowledge primary fallback
    ⟨⟨some Stage.chat_mode, { sess.data with chat_history := out.history }⟩, db,
      out.reply.toList, out.calls⟩
  | some Stage.guest_menu =>
    ⟨sess, db, [t "use_menu_buttons" (sess.data.lang.getD DEFAULT_LANG)], []⟩
  | some Stage.member_menu =>
    ⟨sess, db, [t "use_menu_buttons" (sess.data.lang.getD DEFAULT_LANG)], []⟩
  | some Stage.choose_language => ⟨sess, db, [], []⟩
  | some Stage.about_submenu => ⟨sess, db, [], []⟩
  | none =>
    ⟨⟨some Stage.choose_language, sess.data⟩, db, [t "choose_lang" DEFAULT_LANG], []⟩

/-- The empty store / fresh database (no `users_db.json` yet). -/
def emptyStore : Store := fun _ => none

def DB0 : DB := ⟨emptyStore, emptyStore⟩

/-! ## Substring search (for statements about instruction text) -/

/-- `beginsWith pat l` : `pat` is an initial segment of `l`. -/
def beginsWith : List Char → List Char → Bool
  | [], _ => true
  | _ :: _, [] => false
  | a :: as, b :: bs => a = b && beginsWith as bs

/-- `containsSub pat hay` : `pat` occurs contiguously inside `hay`. -/
def containsSub (pat : List Char) : List Char → Bool
  | [] => beginsWith pat []
  | c :: rest => beginsWith pat (c :: rest) || containsSub pat rest

/-- String-level wrapper for `containsSub`. -/
def strContains (hay pat : String) : Bool := containsSub pat.data hay.data

/-! ## Durable-store operation traces -/

/-- The operations of the program that mutate `USERS_DATA`
(src/qaiyrym_/main.py): language selection (`set_user_language`, reached
from the `lang:` callback) and registration completion
(`save_user_registration`, reached only from `reg_skill`). -/
inductive StoreOp where
  | setLang (user_id lang : String)
  | register (user_id name : String) (age : Nat) (skill lang registered_at : String)
deriving DecidableEq, Repr

/-- Effect of one operation on the in-memory table. -/
def applyOp (s : Store) : StoreOp → Store
  | StoreOp.setLang uid lang => set_user_language_mem s uid lang
  | StoreOp.register uid nm age skill lang rat => register_mem s uid nm age skill lang rat

/-- Effect of a sequence of operations, oldest first. -/
def applyOps (s : Store) (ops : List StoreOp) : Store := ops.foldl applyOp s

/-- Whether an operation is a registration completion for the given user. -/
def StoreOp.registersId : StoreOp → String → Prop
  | StoreOp.setLang _ _, _ => False
  | StoreOp.register uid _ _ _ _ _, u => uid = u

/-! ## Helper lemmas -/

theorem contains_eq_true_of_ne_false {l : List String} {x : String}
    (h : ¬ l.contains x = false) : l.contains x = true := by
  cases hb : l.contains x with
  | false => exact absurd hb h
  | true => rfl

theorem contains_eq_false_of_ne_true {l : List String} {x : String}
    (h : ¬ l.contains x = true) : l.contains x = false := by
  cases hb : l.contains x with
  | false => rfl
  | true => exact absurd hb h

/-- The history-truncation step `chat_history[-20:]` written uniformly as a
drop of the oldest entries. -/
theorem truncate_eq_drop (l : List Turn) :
    (if 20 < l.length then l.drop (l.length - 20) else l) = l.drop (l.length - 20) := by
  split
  · rfl
  · next h => rw [Nat.sub_eq_zero_of_le (Nat.le_of_not_lt h), List.drop_zero]

/-- In the skip branches (empty or noise utterance) the handler changes
nothing and neither replies nor calls the backend. -/
theorem chat_skipped_spec (text : String) (hist : List Turn) (lang role kn : String)
    (p f : BackendOutcome)
    (h : pyStrip text = "" ∨ skip_words.contains (pyLower (pyStrip text)) = true) :
    chat_mode_message text hist lang role kn p f = ⟨hist, none, []⟩ := by
  rcases h with h | h
  · simp [chat_mode_message, h]
  · by_cases h1 : pyStrip text = ""
    · simp [chat_mode_message, h1]
    · simp [chat_mode_message, h1, h]
      exact List.mem_of_elem_eq_true h

/-- In the processed branch the handler appends the user turn and the model
turn, truncates FIFO to the newest 20 entries, sends the escaped reply and
makes exactly the calls `ask_gemini` makes. -/
theorem chat_processed_spec (text : String) (hist : List Turn) (lang role kn : String)
    (p f : BackendOutcome)
    (h1 : pyStrip text ≠ "") (h2 : skip_words.contains (pyLower (pyStrip text)) = false) :
    ∃ (pr : String) (si : Option String), chat_mode_message text hist lang role kn p f =
      ⟨(hist ++ [(⟨"user", pyStrip text⟩ : Turn),
          (⟨"model", (ask_gemini pr si lang true p f).1⟩ : Turn)]).drop
          (hist.length + 2 - 20),
        some (escapeHtml (ask_gemini pr si lang true p f).1),
        (ask_gemini pr si lang true p f).2⟩ := by
  refine ⟨String.intercalate "\n\n" ((hist ++ [(⟨"user", pyStrip text⟩ : Turn)]).map fun m =>
      (if m.role = "user" then "🧑 ПОЛЬЗОВАТЕЛЬ: " else "🤖 КОМПАС: ") ++ m.content),
    some (if kn = "" then
        get_chat_system_instruction lang role (hist ++ [(⟨"user", pyStrip text⟩ : Turn)]).length
      else
        get_chat_system_instruction lang role (hist ++ [(⟨"user", pyStrip text⟩ : Turn)]).length
          ++ "\n\n[CONTEXT_DATA]\n" ++ kn ++ "\n[END_CONTEXT_DATA]"), ?_⟩
  simp only [chat_mode_message, if_neg h1, h2, Bool.false_eq_true, if_false]
  rw [truncate_eq_drop]
  have e1 : ∀ m : Turn, (hist ++ [(⟨"user", pyStrip text⟩ : Turn)]) ++ [m] =
      hist ++ [⟨"user", pyStrip text⟩, m] := by
    intro m; rw [List.append_assoc]; rfl
  rw [e1]
  have e2 : ∀ m : Turn, (hist ++ [(⟨"user", pyStrip text⟩ : Turn), m]).length =
      hist.length + 2 := by
    intro m; simp
  rw [e2]

/-- The model identifiers `ask_gemini` invokes, per first-call outcome. -/
theorem ask_gemini_calls (prompt : String) (sp : Option String) (ul : String) (sk : Bool)
    (p f : BackendOutcome) :
    (p ≠ BackendOutcome.notFound → (ask_gemini prompt sp ul sk p f).2 = [GEMINI_MODEL_NAME]) ∧
    (p = BackendOutcome.notFound →
      (ask_gemini prompt sp ul sk p f).2 = [GEMINI_MODEL_NAME, GEMINI_FALLBACK_MODEL]) := by
  constructor
  · intro hp
    cases p with
    | ok txt => rfl
    | timeout => rfl
    | invalidKey => rfl
    | notFound => exact absurd rfl hp
    | otherError => rfl
  · rintro rfl
    cases f <;> rfl

/-- The fixed reply strings on the three give-up failure classes. -/
theorem ask_gemini_reply_failure (prompt : String) (sp : Option String) (ul : String)
    (sk : Bool) (p f : BackendOutcome)
    (herr : p = BackendOutcome.timeout ∨ p = BackendOutcome.invalidKey ∨
      p = BackendOutcome.otherError) :
    (ask_gemini prompt sp ul sk p f).1 = TIMEOUT_REPLY ∨
    (ask_gemini prompt sp ul sk p f).1 = APIKEY_REPLY ∨
    (ask_gemini prompt sp ul sk p f).1 = GENERIC_FAIL_REPLY := by
  rcases herr with rfl | rfl | rfl
  · exact Or.inl rfl
  · exact Or.inr (Or.inl rfl)
  · exact Or.inr (Or.inr rfl)

theorem escapeHtml_timeout_reply : escapeHtml TIMEOUT_REPLY = TIMEOUT_REPLY := by decide

theorem escapeHtml_apikey_reply : escapeHtml APIKEY_REPLY = APIKEY_REPLY := by decide

theorem escapeHtml_generic_reply : escapeHtml GENERIC_FAIL_REPLY = GENERIC_FAIL_REPLY := by
  decide

theorem beginsWith_extend (pat l post : List Char) (h : beginsWith pat l = true) :
    beginsWith pat (l ++ post) = true := by
  induction pat generalizing l with
  | nil => rfl
  | cons a as ih =>
    cases l with
    | nil => simp [beginsWith] at h
    | cons b bs =>
      simp only [beginsWith, Bool.and_eq_true] at h
      simp only [List.cons_append, beginsWith, Bool.and_eq_true]
      exact ⟨h.1, ih bs h.2⟩

theorem containsSub_append_right (pat a b : List Char) (h : containsSub pat b = true) :
    containsSub pat (a ++ b) = true := by
  induction a with
  | nil => exact h
  | cons x xs ih =>
    simp only [List.cons_append, containsSub, Bool.or_eq_true]
    exact Or.inr ih

theorem containsSub_append_left (pat a b : List Char) (h : containsSub pat a = true) :
    containsSub pat (a ++ b) = true := by
  induction a with
  | nil =>
    cases pat with
    | nil =>
      cases b with
      | nil => rfl
      | cons y ys => simp [containsSub, beginsWith]
    | cons q qs => simp [containsSub, beginsWith] at h
  | cons x xs ih =>
    simp only [containsSub, Bool.or_eq_true] at h
    simp only [List.cons_append, containsSub, Bool.or_eq_true]
    rcases h with h | h
    · exact Or.inl (beginsWith_extend pat (x :: xs) b h)
    · exact Or.inr (ih h)

/-- `set_user_language` does not change how `get_user_role` classifies any
user: a fresh record gets role GUEST, an existing record keeps its role. -/
theorem get_user_role_set_user_language_mem (s : Store) (u l uid : String) :
    get_user_role (set_user_language_mem s u l) uid = get_user_role s uid := by
  unfold get_user_role set_user_language_mem
  by_cases hu : uid = u
  · subst hu
    simp only [if_pos rfl]
    cases hs : s uid with
    | none => simp [hs, guest_only_record]
    | some r0 => simp [hs]
  · simp only [if_neg hu]

/-- `save_user_registration` for one user does not change how
`get_user_role` classifies a different user. -/
theorem get_user_role_register_other (s : Store) (u nm skill lg rat : String) (age : Nat)
    (uid : String) (h : uid ≠ u) :
    get_user_role (register_mem s u nm age skill lg rat) uid = get_user_role s uid := by
  unfold get_user_role register_mem
  rw [if_neg h]

/-- Through any sequence of store operations containing no registration for
`uid`, a non-MEMBER classification of `uid` is preserved. -/
theorem role_not_member_preserved (ops : List StoreOp) (s : Store) (uid : String)
    (hrole : get_user_role s uid ≠ "MEMBER")
    (hno : ∀ op ∈ ops, ¬ op.registersId uid) :
    get_user_role (applyOps s ops) uid ≠ "MEMBER" := by
  induction ops generalizing s with
  | nil => exact hrole
  | cons op rest ih =>
    have hop : ¬ op.registersId uid := hno op (List.mem_cons_self _ _)
    have hrest : ∀ o ∈ rest, ¬ o.registersId uid := fun o ho => hno o (List.mem_cons_of_mem _ ho)
    refine ih (applyOp s op) ?_ hrest
    cases op with
    | setLang u l =>
      rw [applyOp, get_user_role_set_user_language_mem]
      exact hrole
    | register u nm age skill lg rat =>
      have hne : uid ≠ u := by
        intro hcontra
        exact hop (show u = uid from hcontra.symm)
      rw [applyOp, get_user_role_register_other s u nm skill lg rat age uid hne]
      exact hrole

/-! ## Claims -/

/-- C1: for every chat-mode session and processed utterance, the chat
history persisted at the end of the turn has length at most 20; when the
cap would be exceeded exactly the oldest entries are dropped — the history
is either unchanged (empty/noise-filtered utterance) or consists of the
newest 20 of the previous history extended by the new user turn and the
model turn, in their original order. -/
theorem C1_chat_history_cap_fifo (text : String) (hist : List Turn)
    (lang role kn : String) (p f : BackendOutcome) (hlen : hist.length ≤ 20) :
    (chat_mode_message text hist lang role kn p f).history.length ≤ 20 ∧
    ((chat_mode_message text hist lang role kn p f).history = hist ∨
      ∃ reply : String, (chat_mode_message text hist lang role kn p f).history =
        (hist ++ [(⟨"user", pyStrip text⟩ : Turn), (⟨"model", reply⟩ : Turn)]).drop
          (hist.length + 2 - 20)) := by
  by_cases h1 : pyStrip text = ""
  · rw [chat_skipped_spec text hist lang role kn p f (Or.inl h1)]
    exact ⟨hlen, Or.inl rfl⟩
  · by_cases h2 : skip_words.contains (pyLower (pyStrip text)) = true
    · rw [chat_skipped_spec text hist lang role kn p f (Or.inr h2)]
      exact ⟨hlen, Or.inl rfl⟩
    · obtain ⟨pr, si, hspec⟩ := chat_processed_spec text hist lang role kn p f h1
        (contains_eq_false_of_ne_true h2)
      rw [hspec]
      constructor
      · show ((hist ++ [(⟨"user", pyStrip text⟩ : Turn),
            (⟨"model", (ask_gemini pr si lang true p f).1⟩ : Turn)]).drop
            (hist.length + 2 - 20)).length ≤ 20
        rw [List.length_drop]
        simp only [List.length_append, List.length_cons, List.length_nil]
        omega
      · exact Or.inr ⟨(ask_gemini pr si lang true p f).1, rfl⟩

theorem C1_chat_history_cap_fifo_witness :
    ([] : List Turn).length ≤ 20 ∧
    ((chat_mode_message "Расскажи о проекте" [] "ru" "GUEST" ""
        (BackendOutcome.ok (some "Вот так")) BackendOutcome.timeout).history.length ≤ 20 ∧
      ((chat_mode_message "Расскажи о проекте" [] "ru" "GUEST" ""
          (BackendOutcome.ok (some "Вот так")) BackendOutcome.timeout).history = [] ∨
        ∃ reply : String, (chat_mode_message "Расскажи о проекте" [] "ru" "GUEST" ""
            (BackendOutcome.ok (some "Вот так")) BackendOutcome.timeout).history =
          (([] : List Turn) ++ [(⟨"user", pyStrip "Расскажи о проекте"⟩ : Turn),
            (⟨"model", reply⟩ : Turn)]).drop (([] : List Turn).length + 2 - 20))) :=
  ⟨by decide, C1_chat_history_cap_fifo "Расскажи о проекте" [] "ru" "GUEST" ""
    (BackendOutcome.ok (some "Вот так")) BackendOutcome.timeout (by decide)⟩

/-- C2: for every chat-mode utterance that reaches the backend call, if the
call times out, fails with invalid credentials, or fails with any other
(non-not-found) exception, the reply of the turn loop is one of the fixed
apologetic strings — never a propagated exception (the handler is a total
function) — and the triggering user turn remains in the persisted history. -/
theorem C2_backend_failure_fixed_reply (text : String) (hist : List Turn)
    (lang role kn : String) (p f : BackendOutcome)
    (h1 : pyStrip text ≠ "")
    (h2 : skip_words.contains (pyLower (pyStrip text)) = false)
    (herr : p = BackendOutcome.timeout ∨ p = BackendOutcome.invalidKey ∨
      p = BackendOutcome.otherError) :
    ((chat_mode_message text hist lang role kn p f).reply = some TIMEOUT_REPLY ∨
     (chat_mode_message text hist lang role kn p f).reply = some APIKEY_REPLY ∨
     (chat_mode_message text hist lang role kn p f).reply = some GENERIC_FAIL_REPLY) ∧
    (⟨"user", pyStrip text⟩ : Turn) ∈ (chat_mode_message text hist lang role kn p f).history := by
  obtain ⟨pr, si, hspec⟩ := chat_processed_spec text hist lang role kn p f h1 h2
  constructor
  · rcases herr with rfl | rfl | rfl
    · left
      rw [hspec]
      show some (escapeHtml (ask_gemini pr si lang true BackendOutcome.timeout f).1) =
        some TIMEOUT_REPLY
      rw [show (ask_gemini pr si lang true BackendOutcome.timeout f).1 = TIMEOUT_REPLY from rfl,
        escapeHtml_timeout_reply]
    · right; left
      rw [hspec]
      show some (escapeHtml (ask_gemini pr si lang true BackendOutcome.invalidKey f).1) =
        some APIKEY_REPLY
      rw [show (ask_gemini pr si lang true BackendOutcome.invalidKey f).1 = APIKEY_REPLY from rfl,
        escapeHtml_apikey_reply]
    · right; right
      rw [hspec]
      show some (escapeHtml (ask_gemini pr si lang true BackendOutcome.otherError f).1) =
        some GENERIC_FAIL_REPLY
      rw [show (ask_gemini pr si lang true BackendOutcome.otherError f).1 = GENERIC_FAIL_REPLY
          from rfl,
        escapeHtml_generic_reply]
  · rw [hspec]
    show (⟨"user", pyStrip text⟩ : Turn) ∈
      (hist ++ [(⟨"user", pyStrip text⟩ : Turn),
        (⟨"model", (ask_gemini pr si lang true p f).1⟩ : Turn)]).drop (hist.length + 2 - 20)
    rw [List.drop_append_of_le_length (by omega)]
    exact List.mem_append_right _ (List.mem_cons_self _ _)

theorem C2_backend_failure_fixed_reply_witness :
    pyStrip "Расскажи о проекте" ≠ "" ∧
    skip_words.contains (pyLower (pyStrip "Расскажи о проекте")) = false ∧
    (((chat_mode_message "Расскажи о проекте" [] "ru" "GUEST" "" BackendOutcome.timeout
        BackendOutcome.timeout).reply = some TIMEOUT_REPLY ∨
      (chat_mode_message "Расскажи о проекте" [] "ru" "GUEST" "" BackendOutcome.timeout
        BackendOutcome.timeout).reply = some APIKEY_REPLY ∨
      (chat_mode_message "Расскажи о проекте" [] "ru" "GUEST" "" BackendOutcome.timeout
        BackendOutcome.timeout).reply = some GENERIC_FAIL_REPLY) ∧
     (⟨"user", pyStrip "Расскажи о проекте"⟩ : Turn) ∈
       (chat_mode_message "Расскажи о проекте" [] "ru" "GUEST" "" BackendOutcome.timeout
         BackendOutcome.timeout).history) :=
  ⟨by decide, by decide,
    C2_backend_failure_fixed_reply "Расскажи о проекте" [] "ru" "GUEST" ""
      BackendOutcome.timeout BackendOutcome.timeout (by decide) (by decide) (Or.inl rfl)⟩

/-- C4: for every chat-mode utterance, the generative client is invoked at
most once — zero times for filtered utterances, once otherwise — except
that a not-found failure of the first call triggers exactly one additional
call against the fallback model identifier; and on a not-found first
failure of a processed utterance the two calls (primary then fallback) are
in fact made. -/
theorem C4_backend_call_count (text : String) (hist : List Turn) (lang role kn : String)
    (p f : BackendOutcome) :
    ((chat_mode_message text hist lang role kn p f).calls = [] ∨
     (chat_mode_message text hist lang role kn p f).calls = [GEMINI_MODEL_NAME] ∨
     (p = BackendOutcome.notFound ∧
       (chat_mode_message text hist lang role kn p f).calls =
         [GEMINI_MODEL_NAME, GEMINI_FALLBACK_MODEL])) ∧
    (p = BackendOutcome.notFound → pyStrip text ≠ "" →
      skip_words.contains (pyLower (pyStrip text)) = false →
      (chat_mode_message text hist lang role kn p f).calls =
        [GEMINI_MODEL_NAME, GEMINI_FALLBACK_MODEL]) := by
  by_cases h1 : pyStrip text = ""
  · rw [chat_skipped_spec text hist lang role kn p f (Or.inl h1)]
    exact ⟨Or.inl rfl, fun _ hne _ => absurd h1 hne⟩
  · by_cases h2 : skip_words.contains (pyLower (pyStrip text)) = true
    · rw [chat_skipped_spec text hist lang role kn p f (Or.inr h2)]
      refine ⟨Or.inl rfl, fun _ _ hcf => ?_⟩
      rw [h2] at hcf
      exact absurd hcf (by decide)
    · have h2f := contains_eq_false_of_ne_true h2
      obtain ⟨pr, si, hspec⟩ := chat_processed_spec text hist lang role kn p f h1 h2f
      constructor
      · by_cases hp : p = BackendOutcome.notFound
        · exact Or.inr (Or.inr ⟨hp, by
            rw [hspec]; exact (ask_gemini_calls pr si lang true p f).2 hp⟩)
        · exact Or.inr (Or.inl (by
            rw [hspec]; exact (ask_gemini_calls pr si lang true p f).1 hp))
      · intro hp _ _
        rw [hspec]
        exact (ask_gemini_calls pr si lang true p f).2 hp

theorem C4_backend_call_count_witness :
    (chat_mode_message "Расскажи о проекте" [] "ru" "GUEST" "" BackendOutcome.notFound
      BackendOutcome.timeout).calls = [GEMINI_MODEL_NAME, GEMINI_FALLBACK_MODEL] :=
  (C4_backend_call_count "Расскажи о проекте" [] "ru" "GUEST" "" BackendOutcome.notFound
    BackendOutcome.timeout).2 rfl (by decide) (by decide)

/-- C3 (behaviour of the code at the claimed failing input): at a
registration-skill submission during which the durable-store write raises
(`ioOk = false`), `save_users_db` swallows the exception, so
`save_user_registration` still returns `True` and the handler shows the
SUCCESS message, moves the session to the member menu, and leaves an
in-memory MEMBER record — while the on-disk store was never written.
The error branch of `reg_skill` (error message shown, session cleared) is
present in the source but unreachable for store-I/O failures. -/
theorem C3_store_write_failure_not_aborted :
    (reg_skill "Готовить" "42" "alice" ⟨some Stage.registration_skill,
        ⟨some "ru", some "Алия", some 25, []⟩⟩ DB0 false true
        "2026-02-14T10:00:00").messages =
      ["✅ Регистрация завершена! Добро пожаловать! 🎉",
       "Привет, участник! 🎉 Чем могу помочь?"] ∧
    get_user_role (reg_skill "Готовить" "42" "alice" ⟨some Stage.registration_skill,
        ⟨some "ru", some "Алия", some 25, []⟩⟩ DB0 false true
        "2026-02-14T10:00:00").db.mem "42" = "MEMBER" ∧
    (reg_skill "Готовить" "42" "alice" ⟨some Stage.registration_skill,
        ⟨some "ru", some "Алия", some 25, []⟩⟩ DB0 false true
        "2026-02-14T10:00:00").session = ⟨some Stage.member_menu, SessionData.empty⟩ ∧
    (reg_skill "Готовить" "42" "alice" ⟨some Stage.registration_skill,
        ⟨some "ru", some "Алия", some 25, []⟩⟩ DB0 false true
        "2026-02-14T10:00:00").db.disk "42" = none :=
  ⟨rfl, rfl, rfl, rfl⟩

/-- C5: in the RegistrationAge stage, a non-digit input re-prompts with the
invalid-age message and changes neither the stage, nor the pending data,
nor the store; a digit input below 18 shows the underage message and clears
the session (stage and data) leaving the store unchanged; a digit input of
at least 18 stores the age and advances to the skill stage. -/
theorem C5_registration_age (text user_id username : String) (sd : SessionData) (db : DB)
    (p f : BackendOutcome) (ioOk sheetsOk : Bool) (kn now : String) :
    (pyIsDigitStr (pyStrip text) = false →
      handle_text text user_id username ⟨some Stage.registration_age, sd⟩ db p f
          ioOk sheetsOk kn now =
        ⟨⟨some Stage.registration_age, sd⟩, db,
          [t "invalid_age" (sd.lang.getD DEFAULT_LANG)], []⟩) ∧
    (pyIsDigitStr (pyStrip text) = true → pyInt (pyStrip text) < 18 →
      handle_text text user_id username ⟨some Stage.registration_age, sd⟩ db p f
          ioOk sheetsOk kn now =
        ⟨⟨none, SessionData.empty⟩, db,
          [t "underage" (sd.lang.getD DEFAULT_LANG)], []⟩) ∧
    (pyIsDigitStr (pyStrip text) = true → 18 ≤ pyInt (pyStrip text) →
      handle_text text user_id username ⟨some Stage.registration_age, sd⟩ db p f
          ioOk sheetsOk kn now =
        ⟨⟨some Stage.registration_skill, { sd with age := some (pyInt (pyStrip text)) }⟩, db,
          [t "ask_skill" (sd.lang.getD DEFAULT_LANG)], []⟩) := by
  refine ⟨?_, ?_, ?_⟩
  · intro h
    simp [handle_text, reg_age, h]
  · intro h hlt
    simp [handle_text, reg_age, h, hlt]
  · intro h hge
    simp [handle_text, reg_age, h, Nat.not_lt.mpr hge]

theorem C5_registration_age_witness :
    pyIsDigitStr (pyStrip "abc") = false ∧
    handle_text "abc" "42" "alice" ⟨some Stage.registration_age,
        ⟨some "ru", some "Алия", none, []⟩⟩ DB0 BackendOutcome.timeout BackendOutcome.timeout
        true true "" "2026-02-14T10:00:00" =
      ⟨⟨some Stage.registration_age, ⟨some "ru", some "Алия", none, []⟩⟩, DB0,
        [t "invalid_age" ((⟨some "ru", some "Алия", none, []⟩ : SessionData).lang.getD
          DEFAULT_LANG)], []⟩ :=
  ⟨by decide,
    (C5_registration_age "abc" "42" "alice" ⟨some "ru", some "Алия", none, []⟩ DB0
      BackendOutcome.timeout BackendOutcome.timeout true true "" "2026-02-14T10:00:00").1
      (by decide)⟩

/-- C6: in any store state reachable from the empty store by the program's
store-mutating operations (language selection, registration completion), a
user is classified MEMBER only if some registration-completion operation
for that user occurs in the trace; language selection alone — which either
creates a GUEST record or preserves the existing role — never yields
MEMBER. -/
theorem C6_member_role_only_from_registration (ops : List StoreOp) (uid : String)
    (h : get_user_role (applyOps emptyStore ops) uid = "MEMBER") :
    ∃ op ∈ ops, op.registersId uid := by
  by_contra hno
  push_neg at hno
  refine role_not_member_preserved ops emptyStore uid ?_ hno h
  simp [get_user_role, emptyStore]

theorem C6_member_role_only_from_registration_witness :
    ∃ op ∈ [StoreOp.setLang "1" "ru",
        StoreOp.register "1" "Алия" 25 "готовка" "ru" "2026-02-14T10:00:00"],
      op.registersId "1" :=
  C6_member_role_only_from_registration
    [StoreOp.setLang "1" "ru", StoreOp.register "1" "Алия" 25 "готовка" "ru"
      "2026-02-14T10:00:00"] "1" rfl

set_option maxRecDepth 40000 in
/-- C7: the prompt builder is a pure function — equal (language, role,
historyLength) tuples yield identical instruction strings — and the
instruction contains the first-turn greeting-permission text if and only
if the history length is at most 2, containing the explicit no-re-greeting
text whenever the history length exceeds 2. -/
theorem C7_prompt_builder (l r : String) (n : Nat) (l2 r2 : String) (n2 : Nat)
    (heq : l = l2 ∧ r = r2 ∧ n = n2) :
    get_chat_system_instruction l r n = get_chat_system_instruction l2 r2 n2 ∧
    (strContains (get_chat_system_instruction l r n) GREETING_MARKER = true ↔ n ≤ 2) ∧
    (2 < n → strContains (get_chat_system_instruction l r n) NO_REGREET_MARKER = true) := by
  obtain ⟨rfl, rfl, rfl⟩ := heq
  refine ⟨rfl, ?_, ?_⟩
  · by_cases hh : n ≤ 2
    · refine iff_of_true ?_ hh
      simp only [get_chat_system_instruction, if_pos hh]
      simp only [strContains, String.data_append]
      rw [List.append_assoc]
      exact containsSub_append_right _ _ _ (containsSub_append_left _ _ _ (by decide))
    · refine iff_of_false ?_ hh
      simp only [get_chat_system_instruction, if_neg hh]
      by_cases hru : l = "ru"
      · subst hru
        by_cases hr : r = "MEMBER"
        · subst hr; decide
        · rw [if_neg hr]; decide
      · by_cases hkz : l = "kz"
        · subst hkz
          by_cases hr : r = "MEMBER"
          · subst hr; decide
          · rw [if_neg hr]; decide
        · rw [if_neg (show ¬(l = "ru" ∨ l = "kz") from fun hor => hor.elim hru hkz)]
          by_cases hr : r = "MEMBER"
          · subst hr; decide
          · rw [if_neg hr]; decide
  · intro hgt
    simp only [get_chat_system_instruction, if_neg (Nat.not_le.mpr hgt)]
    simp only [strContains, String.data_append]
    rw [List.append_assoc]
    exact containsSub_append_right _ _ _ (containsSub_append_left _ _ _ (by decide))

theorem C7_prompt_builder_witness :
    ("ru" = "ru" ∧ "GUEST" = "GUEST" ∧ 0 = 0) ∧
    (get_chat_system_instruction "ru" "GUEST" 0 = get_chat_system_instruction "ru" "GUEST" 0 ∧
     (strContains (get_chat_system_instruction "ru" "GUEST" 0) GREETING_MARKER = true ↔
       0 ≤ 2) ∧
     (2 < 0 → strContains (get_chat_system_instruction "ru" "GUEST" 0) NO_REGREET_MARKER =
       true)) :=
  ⟨⟨rfl, rfl, rfl⟩, C7_prompt_builder "ru" "GUEST" 0 "ru" "GUEST" 0 ⟨rfl, rfl, rfl⟩⟩

/-- C8 counterexample: the Latin input "ok" is NOT in the fixed skip set
(the set holds the Russian tokens, Cyrillic «ок» among them), so in chat
mode it is processed: the backend is called, the history is mutated and a
reply is sent — contradicting the claim that the input "ok" produces no
backend call, no history change and no reply. -/
theorem C8_counterexample :
    (chat_mode_message "ok" [] "ru" "GUEST" "" (BackendOutcome.ok (some "Привет!"))
      (BackendOutcome.ok none)).calls = [GEMINI_MODEL_NAME] ∧
    (chat_mode_message "ok" [] "ru" "GUEST" "" (BackendOutcome.ok (some "Привет!"))
      (BackendOutcome.ok none)).history =
      [⟨"user", "ok"⟩, ⟨"model", "Привет!"⟩] ∧
    (chat_mode_message "ok" [] "ru" "GUEST" "" (BackendOutcome.ok (some "Привет!"))
      (BackendOutcome.ok none)).reply = some "Привет!" :=
  ⟨rfl, rfl, rfl⟩

/-- C8 (amended): every chat-mode utterance whose stripped, lowercased form
is in the fixed skip set — the Russian tokens «ок», «да», «нет», «привет»,
«привет!», «ха», «оке», «хорошо», «спасибо», «пока» — is silently
discarded: no history mutation, no backend call, no reply. -/
theorem C8_amended_skip_filter (text : String) (hist : List Turn) (lang role kn : String)
    (p f : BackendOutcome)
    (hskip : skip_words.contains (pyLower (pyStrip text)) = true) :
    chat_mode_message text hist lang role kn p f = ⟨hist, none, []⟩ :=
  chat_skipped_spec text hist lang role kn p f (Or.inr hskip)

theorem C8_amended_skip_filter_witness :
    skip_words.contains (pyLower (pyStrip "ок")) = true ∧
    chat_mode_message "ок" [⟨"user", "а"⟩] "ru" "GUEST" "" BackendOutcome.timeout
      BackendOutcome.timeout = ⟨[⟨"user", "а"⟩], none, []⟩ :=
  ⟨by decide, C8_amended_skip_filter "ок" [⟨"user", "а"⟩] "ru" "GUEST" ""
    BackendOutcome.timeout BackendOutcome.timeout (by decide)⟩

/-- C9 counterexample: a free-text message while the session is in the
about-submenu stage matches no registered text handler (the source has
handlers only for the registration stages, chat mode, the guest menu, the
member menu and state None), so the user gets NO answer at all — not the
button-guidance message the claim asserts. -/
theorem C9_counterexample :
    (handle_text "Привет, расскажи о проекте" "7" "" ⟨some Stage.about_submenu,
        SessionData.empty⟩ DB0 (BackendOutcome.ok none) (BackendOutcome.ok none) true true
        "" "2026-02-14T10:00:00").messages = [] ∧
    (handle_text "Привет, расскажи о проекте" "7" "" ⟨some Stage.about_submenu,
        SessionData.empty⟩ DB0 (BackendOutcome.ok none) (BackendOutcome.ok none) true true
        "" "2026-02-14T10:00:00").session = ⟨some Stage.about_submenu, SessionData.empty⟩ ∧
    t "use_menu_buttons" "ru" = "👇 Используйте кнопки меню." :=
  ⟨rfl, rfl, rfl⟩

/-- C9 (amended): a free-text message in the guest menu or the member menu
is answered with the button-guidance message and leaves the session stage
(and everything else) unchanged; in the about submenu no handler matches,
so the message is ignored entirely — no reply, stage likewise unchanged. -/
theorem C9_amended_menu_text (text user_id username : String) (sd : SessionData) (db : DB)
    (p f : BackendOutcome) (ioOk sheetsOk : Bool) (kn now : String) :
    handle_text text user_id username ⟨some Stage.guest_menu, sd⟩ db p f ioOk sheetsOk
        kn now =
      ⟨⟨some Stage.guest_menu, sd⟩, db,
        [t "use_menu_buttons" (sd.lang.getD DEFAULT_LANG)], []⟩ ∧
    handle_text text user_id username ⟨some Stage.member_menu, sd⟩ db p f ioOk sheetsOk
        kn now =
      ⟨⟨some Stage.member_menu, sd⟩, db,
        [t "use_menu_buttons" (sd.lang.getD DEFAULT_LANG)], []⟩ ∧
    handle_text text user_id username ⟨some Stage.about_submenu, sd⟩ db p f ioOk sheetsOk
        kn now =
      ⟨⟨some Stage.about_submenu, sd⟩, db, [], []⟩ :=
  ⟨rfl, rfl, rfl⟩

/-- C10 counterexample: the `src/main.py` variant of `set_user_language`,
applied to an identifier not yet in the store, creates a record that also
contains `agreed = False` — not a record containing exactly the role and
the chosen language. -/
theorem C10_counterexample :
    storeField (set_user_language_mem_main emptyStore "7" "ru") "7" "agreed" =
      some (Value.bool false) ∧
    "agreed" ≠ "role" ∧ "agreed" ≠ "lang" :=
  ⟨rfl, by decide, by decide⟩

/-- C10 (amended): in both variants, for an identifier already present the
language selection changes only the `lang` field (every other field of the
record, and every other user's record, keeps its previous value); for an
absent identifier the qaiyrym_ variant creates a record containing exactly
`role = GUEST` and the chosen language, while the `src/main.py` variant
creates exactly `role = GUEST`, `agreed = False` and the chosen language. -/
theorem C10_amended_set_language_frame (s : Store) (uid lang u k : String) :
    (∀ r0 : UserRec, s uid = some r0 → k ≠ "lang" →
      storeField (set_user_language_mem s uid lang) uid k = r0 k ∧
      storeField (set_user_language_mem_main s uid lang) uid k = r0 k) ∧
    storeField (set_user_language_mem s uid lang) uid "lang" = some (Value.str lang) ∧
    storeField (set_user_language_mem_main s uid lang) uid "lang" = some (Value.str lang) ∧
    (s uid = none →
      storeField (set_user_language_mem s uid lang) uid "role" = some (Value.str "GUEST") ∧
      storeField (set_user_language_mem_main s uid lang) uid "role" =
        some (Value.str "GUEST") ∧
      storeField (set_user_language_mem_main s uid lang) uid "agreed" =
        some (Value.bool false)) ∧
    (s uid = none → k ≠ "lang" → k ≠ "role" →
      storeField (set_user_language_mem s uid lang) uid k = none ∧
      (k ≠ "agreed" → storeField (set_user_language_mem_main s uid lang) uid k = none)) ∧
    (u ≠ uid → set_user_language_mem s uid lang u = s u ∧
      set_user_language_mem_main s uid lang u = s u) := by
  refine ⟨?_, ?_, ?_, ?_, ?_, ?_⟩
  · intro r0 hex hk
    constructor
    · simp [storeField, set_user_language_mem, hex, hk]
    · simp [storeField, set_user_language_mem_main, hex, hk]
  · simp [storeField, set_user_language_mem]
  · simp [storeField, set_user_language_mem_main]
  · intro hnone
    refine ⟨?_, ?_, ?_⟩
    · simp [storeField, set_user_language_mem, hnone, guest_only_record]
    · simp [storeField, set_user_language_mem_main, hnone, guest_agreed_record_main]
    · simp [storeField, set_user_language_mem_main, hnone, guest_agreed_record_main]
  · intro hnone hk hk2
    constructor
    · simp [storeField, set_user_language_mem, hnone, guest_only_record, hk, hk2]
    · intro hk3
      simp [storeField, set_user_language_mem_main, hnone, guest_agreed_record_main,
        hk, hk2, hk3]
  · intro hu
    constructor
    · simp [set_user_language_mem, hu]
    · simp [set_user_language_mem_main, hu]

theorem C10_amended_set_language_frame_witness :
    (emptyStore "7" = none) ∧
    ("name" ≠ "lang") ∧ ("name" ≠ "role") ∧
    (storeField (set_user_language_mem emptyStore "7" "ru") "7" "name" = none ∧
     ("name" ≠ "agreed" →
       storeField (set_user_language_mem_main emptyStore "7" "ru") "7" "name" = none)) :=
  ⟨rfl, by decide, by decide,
    (C10_amended_set_language_frame emptyStore "7" "ru" "8" "name").2.2.2.2.1 rfl
      (by decide) (by decide)⟩

end Qaiyrym
